import Mathlib

/-!
Verification of `synthesis.py`, a lightweight toy synthesizer.

Modelling conventions:
* Python floats are idealized as exact rationals (`ℚ`); the sine oscillator,
  whose samples involve `math.sin`, uses `ℝ`.
* Python's `round` is round-half-to-even (`pyRound` below).
* A Python generator function executes none of its body when called; the body
  runs lazily at each `next()`.  A generator is therefore modelled by the
  sequence of samples it emits together with how it terminates: normal
  exhaustion (`stop`), an exception raised mid-pull (`raise e`), or an
  infinite loop that never yields (`hang`).  Construction of a generator is
  total; every failure is carried in the pull behaviour.
* `next()` on an exhausted generator raises `StopIteration`; under PEP 479
  a `StopIteration` escaping a generator frame surfaces as `RuntimeError`.
  This exhaustion condition is what the specification names
  `StreamExhaustedError`; it is `SynthError.streamExhausted` below.
-/

namespace Synthesis

/-- The exception kinds that can surface from the code. -/
inductive SynthError where
  /-- Python `AttributeError`: `re.match` returned `None` and `.group` was called. -/
  | attributeError
  /-- Python `KeyError`: dictionary lookup miss in `SEMITONAL_OFFSET_MAP`. -/
  | keyError
  /-- Python `AssertionError`: the duty-cycle assert in `rectangular_wave`. -/
  | assertionError
  /-- Python `ZeroDivisionError`: float division by zero. -/
  | zeroDivision
  /-- Pulling past the end of a finite source: `next()` raises `StopIteration`,
      surfacing as `RuntimeError` per PEP 479.  The spec calls this
      `StreamExhaustedError`. -/
  | streamExhausted
  /-- Python `struct.error`: value out of range for `struct.pack("<h", v)`. -/
  | structError
  deriving DecidableEq, Repr

/-- How a generator's sample sequence ends. -/
inductive Terminal where
  /-- Normal exhaustion (the generator body returns). -/
  | stop
  /-- An exception raised by the pull following the last emitted sample. -/
  | raise (e : SynthError)
  /-- The pull following the last emitted sample never returns
      (a `while True` loop whose inner loops are all empty). -/
  | hang
  deriving DecidableEq, Repr

/-- A sample stream: the full observable behaviour of one Python generator. -/
inductive SStream (α : Type) where
  /-- Emits the samples of `xs` in order, then terminates as `t` says. -/
  | fin (xs : List α) (t : Terminal)
  /-- Emits `f 0, f 1, f 2, ...` forever. -/
  | inf (f : ℕ → α)

/-- Python's built-in `round`: round half to even (banker's rounding). -/
def pyRound (x : ℚ) : ℤ :=
  if x - Int.floor x < 1/2 then Int.floor x
  else if 1/2 < x - Int.floor x then Int.floor x + 1
  else if Int.floor x % 2 = 0 then Int.floor x else Int.floor x + 1

/-- `SAMPLING_RATE = 44100` -/
def SAMPLING_RATE : ℚ := 44100

/-- `A4_FREQ = 440.0`, the reference frequency for all tuning. -/
def A4_FREQ : ℝ := 440

/-- The `SEMITONAL_OFFSET_MAP` dictionary, as an association list
    (keys are the pitch-class tokens, Python strings as char lists). -/
def SEMITONAL_OFFSET_MAP : List (List Char × ℤ) :=
  [(['C'], -9), (['C', '#'], -8), (['D', 'b'], -8), (['D'], -7),
   (['D', '#'], -6), (['E', 'b'], -6), (['E'], -5), (['F'], -4),
   (['F', '#'], -3), (['G', 'b'], -3), (['G'], -2), (['G', '#'], -1),
   (['A', 'b'], -1), (['A'], 0), (['A', '#'], 1), (['B', 'b'], 1),
   (['B'], 2)]

/-- The letters accepted by the first character class of
    `NOTE_REGEX = "([ABCDEFG][#b]?)([1-9]?)"`. -/
def noteLetters : List Char := ['A', 'B', 'C', 'D', 'E', 'F', 'G']

/-- `[1-9]?` applied at the front of the remaining input: takes the first
    character when it is a digit 1..9, else matches the empty string. -/
def optDigit (s : List Char) : Option Char :=
  match s with
  | [] => none
  | c :: _ => if '1' ≤ c ∧ c ≤ '9' then some c else none

/-- `re.match(NOTE_REGEX, s)` with `NOTE_REGEX = "([ABCDEFG][#b]?)([1-9]?)"`.
    `re.match` anchors only at the start: trailing input is ignored.
    Returns `(group 1, group 2)` where group 2 is the optional octave digit;
    `none` when the regex does not match (first char not a note letter). -/
def reMatchNote (s : List Char) : Option (List Char × Option Char) :=
  match s with
  | [] => none
  | c :: rest =>
    if c ∈ noteLetters then
      match rest with
      | a :: rest2 =>
        if a = '#' ∨ a = 'b' then some ([c, a], optDigit rest2)
        else some ([c], optDigit rest)
      | [] => some ([c], none)
    else none

/-- `int` of the matched octave digit. -/
def digitVal (c : Char) : ℤ := (c.toNat : ℤ) - 48

/-- Octave: `int(match.group(2))` when the digit matched, else the default 4. -/
def octOf (octd : Option Char) : ℤ :=
  match octd with
  | some d => digitVal d
  | none => 4

/-- The frequency formula of `note_to_freq`:
    `A4_FREQ * 2 ** (offset / 12.0) * 2 ** (octave - 4)`. -/
noncomputable def freqOf (off oct : ℤ) : ℝ :=
  A4_FREQ * (2 : ℝ) ^ ((off : ℝ) / 12) * (2 : ℝ) ^ ((oct : ℝ) - 4)

/-- The discrete part of `note_to_freq`: regex match and dictionary lookup,
    producing the semitonal offset and the octave.  `re.match` returns
    `None` on a non-matching string, so `match.group(2)` raises
    `AttributeError`; a matched token absent from the dictionary raises
    `KeyError`.  (The code itself carries
    `TODO(antb): Add error checking for bad note names.`) -/
def noteParse (s : List Char) : Except SynthError (ℤ × ℤ) :=
  match reMatchNote s with
  | none => .error .attributeError
  | some (tok, octd) =>
    match List.lookup tok SEMITONAL_OFFSET_MAP with
    | none => .error .keyError
    | some off => .ok (off, octOf octd)

/-- `note_to_freq(note_name)`: the offset/octave of `noteParse` fed through
    the frequency formula. -/
noncomputable def note_to_freq (s : List Char) : Except SynthError ℝ :=
  match noteParse s with
  | .error e => .error e
  | .ok (off, oct) => .ok (freqOf off oct)

/-- `hold(level)`: an infinite generator that holds at `level`. -/
def hold (level : ℚ) : SStream ℚ := .inf (fun _ => level)

/-- `silence()`: `hold(0.0)`. -/
def silence : SStream ℚ := hold 0

/-- `num_samples = round(SAMPLING_RATE / frequency)` in the oscillators. -/
def cycleLen (frequency : ℚ) : ℤ := pyRound (SAMPLING_RATE / frequency)

/-- `max_count = round(duty_cycle * num_samples)` in `rectangular_wave`. -/
def maxCnt (frequency duty_cycle : ℚ) : ℤ :=
  pyRound (duty_cycle * (cycleLen frequency : ℚ))

/-- The infinite sample function of `rectangular_wave`: the first `m` samples
    of each `n`-sample cycle are `mx`, the rest `mn`. -/
def rectFun (n m : ℕ) (mn mx : ℚ) : ℕ → ℚ :=
  fun i => if i % n < m then mx else mn

/-- `rectangular_wave(frequency, duty_cycle, minimum, maximum)`.  The body
    runs at the first pull: it computes `num_samples` (a zero frequency
    raises `ZeroDivisionError` there), asserts `0.0 <= duty_cycle <= 1.0`,
    and then loops forever.  When `num_samples <= 0` both inner `range`
    loops are empty, so the `while True` loop spins without yielding. -/
def rectangular_wave (frequency duty_cycle mn mx : ℚ) : SStream ℚ :=
  if frequency = 0 then .fin [] (.raise .zeroDivision)
  else if ¬(0 ≤ duty_cycle ∧ duty_cycle ≤ 1) then .fin [] (.raise .assertionError)
  else if cycleLen frequency ≤ 0 then .fin [] .hang
  else .inf (rectFun (cycleLen frequency).toNat (maxCnt frequency duty_cycle).toNat mn mx)

/-- `sine_wave(frequency)`: sample `i` of a cycle of `num_samples` samples is
    `sin(i * pi * 2 / num_samples)`.  When `num_samples <= 0` the inner loop
    is empty and the `while True` loop spins without yielding. -/
noncomputable def sine_wave (frequency : ℚ) : SStream ℝ :=
  if frequency = 0 then .fin [] (.raise .zeroDivision)
  else if cycleLen frequency ≤ 0 then .fin [] .hang
  else .inf (fun i =>
    Real.sin (((i % (cycleLen frequency).toNat : ℕ) : ℝ) * Real.pi * 2
      / ((cycleLen frequency).toNat : ℝ)))

/-- `num_samples = round(duration * SAMPLING_RATE)` in `linear_change`. -/
def lcN (duration : ℚ) : ℤ := pyRound (duration * SAMPLING_RATE)

/-- The samples of `linear_change`: `start + i * slope` for
    `i in range(num_samples)`, with `slope = (end - start) / num_samples`. -/
def lcSamples (duration start stop : ℚ) : List ℚ :=
  (List.range (lcN duration).toNat).map
    (fun i : ℕ => start + (i : ℚ) * ((stop - start) / (lcN duration : ℚ)))

/-- `linear_change(duration, start, end)`.  The body runs at the first pull:
    when `num_samples` is 0, `slope = (end - start) / float(num_samples)`
    raises `ZeroDivisionError`; when `num_samples` is negative the `range`
    loop is empty and the generator stops without yielding. -/
def linear_change (duration start stop : ℚ) : SStream ℚ :=
  if lcN duration = 0 then .fin [] (.raise .zeroDivision)
  else .fin (lcSamples duration start stop) .stop

/-- `num_samples = round(num_seconds * SAMPLING_RATE)` in `time_limiter`. -/
def tlN (num_seconds : ℚ) : ℤ := pyRound (num_seconds * SAMPLING_RATE)

/-- `time_limiter(generator, num_seconds)`: yields `next(generator)`
    `num_samples` times.  When the source is exhausted early, `next` raises
    `StopIteration`, which escapes this generator as `RuntimeError`
    (PEP 479) — `streamExhausted`.  An exception or hang of the source
    propagates at the pull that hits it. -/
def time_limiter (g : SStream α) (num_seconds : ℚ) : SStream α :=
  match g with
  | .inf f => .fin ((List.range (tlN num_seconds).toNat).map f) .stop
  | .fin xs t =>
    if (tlN num_seconds).toNat ≤ xs.length then .fin (xs.take (tlN num_seconds).toNat) .stop
    else
      match t with
      | .stop => .fin xs (.raise .streamExhausted)
      | .raise e => .fin xs (.raise e)
      | .hang => .fin xs .hang

/-- One step of `concatenate`: fully consume `a`, then `b`.  An exception or
    hang of `a` propagates through the `for` loop; `b` is then never pulled.
    An infinite `a` means the overall stream never advances past `a`. -/
def concat2 (a b : SStream α) : SStream α :=
  match a with
  | .inf f => .inf f
  | .fin xs .stop =>
    match b with
    | .fin ys u => .fin (xs ++ ys) u
    | .inf g => .inf (fun i => if h : i < xs.length then xs.get ⟨i, h⟩ else g (i - xs.length))
  | .fin xs t => .fin xs t

/-- `concatenate(*kwargs)`: concatenates every supplied generator in order. -/
def concatenate (gs : List (SStream α)) : SStream α :=
  gs.foldr concat2 (.fin [] .stop)

/-- `linear_adsr(...)`: concatenation of the four envelope phases. -/
def linear_adsr (attack_duration decay_duration sustain_duration
    release_duration sustain_level : ℚ) : SStream ℚ :=
  concatenate
    [linear_change attack_duration 0 1,
     linear_change decay_duration 1 sustain_level,
     time_limiter (hold sustain_level) sustain_duration,
     linear_change release_duration sustain_level 0]

/-- Quantization in `pipe_to_wave`: `round(scaler * sample)` with
    `scaler = 32767`. -/
def quantize (sample : ℚ) : ℤ := pyRound (32767 * sample)

/-- `struct.pack("<h", v)`: the two bytes of `v`, two's complement,
    little-endian (low byte first). -/
def toLE16 (v : ℤ) : List ℕ :=
  [((v.emod 65536).emod 256).toNat, ((v.emod 65536).ediv 256).toNat]

/-- The body of the `for sample in generator` loop of `pipe_to_wave`, over the
    samples the generator emits: pack each quantized sample and append its
    bytes.  `struct.pack("<h", v)` raises `struct.error` when `v` is outside
    the signed 16-bit range; the bytes written before the error are kept. -/
def writeLoop : List ℚ → List ℕ × Option SynthError
  | [] => ([], none)
  | q :: rest =>
    if quantize q < -32768 ∨ 32767 < quantize q then ([], some .structError)
    else
      ((toLE16 (quantize q) ++ (writeLoop rest).1), (writeLoop rest).2)

/-- The WAV file written by `pipe_to_wave`: header fields set by
    `setnchannels(1)`, `setframerate(SAMPLING_RATE)`, `setsampwidth(2)`
    (2 bytes = 16 bits per sample), and the raw frame bytes in order. -/
structure WaveFile where
  nchannels : ℕ
  framerate : ℕ
  sampwidth : ℕ
  frames : List ℕ
  deriving DecidableEq, Repr

/-- What a call to `pipe_to_wave` leaves behind: the finalized file (the
    `with` block closes it on every exit path) and the exception, if any,
    that the bare `except:` caught and printed.  The function itself always
    returns normally. -/
structure RenderResult where
  file : WaveFile
  swallowed : Option SynthError
  deriving DecidableEq, Repr

/-- `pipe_to_wave(generator, out_filename)`.  Writes quantized frames until
    the generator is exhausted or some exception is raised; ANY exception
    (from the generator or from `struct.pack`) is caught by the bare
    `except:` clause, printed, and swallowed — the call then returns
    normally and the `with` block finalizes the file with the frames
    written so far.  `none` models non-termination (an infinite or hanging
    generator never lets the loop finish). -/
def pipe_to_wave (g : SStream ℚ) : Option RenderResult :=
  match g with
  | .inf _ => none
  | .fin xs t =>
    match (writeLoop xs).2 with
    | some e => some ⟨⟨1, 44100, 2, (writeLoop xs).1⟩, some e⟩
    | none =>
      match t with
      | .stop => some ⟨⟨1, 44100, 2, (writeLoop xs).1⟩, none⟩
      | .raise e => some ⟨⟨1, 44100, 2, (writeLoop xs).1⟩, some e⟩
      | .hang => none

/-! ### Helper lemmas -/

theorem pyRound_ge_floor (x : ℚ) : Int.floor x ≤ pyRound x := by
  rw [pyRound]
  split_ifs <;> omega

theorem pyRound_nonneg {x : ℚ} (h : 0 ≤ x) : 0 ≤ pyRound x := by
  have hf : (0 : ℤ) ≤ Int.floor x := Int.floor_nonneg.mpr h
  have hg := pyRound_ge_floor x
  omega

theorem pyRound_le_int {x : ℚ} {n : ℤ} (h : x ≤ n) : pyRound x ≤ n := by
  have hfl : Int.floor x ≤ n := by
    have h2 := Int.floor_le_floor h
    rwa [Int.floor_intCast] at h2
  have hkey : ¬(x - Int.floor x < 1/2) → Int.floor x + 1 ≤ n := by
    intro h1
    have hx : (Int.floor x : ℚ) < x := by
      have := not_lt.mp h1
      linarith
    have hxn : Int.floor x < n := by
      have hq : (Int.floor x : ℚ) < (n : ℚ) := lt_of_lt_of_le hx h
      exact_mod_cast hq
    omega
  rw [pyRound]
  split_ifs with h1 h2 h3
  · exact hfl
  · exact hkey h1
  · exact hfl
  · exact hkey h1

theorem range_map_ite (m k : ℕ) (x y : ℚ) :
    (List.range (m + k)).map (fun j => if j < m then x else y)
      = List.replicate m x ++ List.replicate k y := by
  rw [List.range_add, List.map_append, List.map_map]
  congr 1
  · refine List.eq_replicate_iff.mpr ⟨by simp, ?_⟩
    intro b hb
    obtain ⟨j, hj, rfl⟩ := List.mem_map.mp hb
    simp [List.mem_range.mp hj]
  · refine List.eq_replicate_iff.mpr ⟨by simp, ?_⟩
    intro b hb
    obtain ⟨j, hj, rfl⟩ := List.mem_map.mp hb
    simp

theorem quantize_zero : quantize 0 = 0 := by
  rw [quantize, pyRound]
  norm_num

theorem toLE16_zero : toLE16 0 = [0, 0] := rfl

theorem writeLoop_ok : ∀ xs : List ℚ,
    (∀ q ∈ xs, -32768 ≤ quantize q ∧ quantize q ≤ 32767) →
    writeLoop xs = ((xs.map (fun q => toLE16 (quantize q))).flatten, none)
  | [], _ => rfl
  | q :: rest, h => by
    have hq := h q (List.mem_cons_self q rest)
    have hrest := writeLoop_ok rest (fun p hp => h p (List.mem_cons_of_mem q hp))
    rw [writeLoop, if_neg (by omega)]
    simp [hrest]

theorem writeLoop_replicate_zero : ∀ n : ℕ,
    writeLoop (List.replicate n 0) = (List.replicate (2 * n) 0, none)
  | 0 => rfl
  | n + 1 => by
    rw [List.replicate_succ, writeLoop, if_neg (by rw [quantize_zero]; norm_num)]
    rw [writeLoop_replicate_zero n, quantize_zero, toLE16_zero]
    rw [show 2 * (n + 1) = 2 + 2 * n from by ring, List.replicate_add]
    rfl

theorem timeLimiter_hold (lvl s : ℚ) :
    time_limiter (hold lvl) s = .fin (List.replicate (tlN s).toNat lvl) .stop := by
  show SStream.fin ((List.range (tlN s).toNat).map fun _ => lvl) .stop = _
  rw [List.map_const', List.length_range]

theorem lcSamples_length (d s e : ℚ) : (lcSamples d s e).length = (lcN d).toNat := by
  simp [lcSamples]

theorem lcSamples_head (d s e : ℚ) (h : 1 ≤ lcN d) : (lcSamples d s e).head? = some s := by
  obtain ⟨t, ht⟩ : ∃ t, (lcN d).toNat = t + 1 := ⟨(lcN d).toNat - 1, by omega⟩
  rw [lcSamples, ht, List.range_succ_eq_map]
  simp

theorem lcSamples_getLast (d s e : ℚ) (h : 1 ≤ lcN d) :
    (lcSamples d s e).getLast?
      = some (s + ((lcN d : ℚ) - 1) * ((e - s) / (lcN d : ℚ))) := by
  obtain ⟨t, ht⟩ : ∃ t, (lcN d).toNat = t + 1 := ⟨(lcN d).toNat - 1, by omega⟩
  have hcast : ((t : ℚ)) = (lcN d : ℚ) - 1 := by
    have h2 : ((lcN d).toNat : ℤ) = lcN d := Int.toNat_of_nonneg (by omega)
    have h3 : ((t : ℤ)) = lcN d - 1 := by omega
    exact_mod_cast h3
  rw [lcSamples, ht, List.range_succ, List.map_append]
  simp only [List.map_cons, List.map_nil, List.getLast?_concat]
  rw [hcast]

theorem lcSamples_getD (d s e : ℚ) (i : ℕ) (h : i < (lcN d).toNat) :
    (lcSamples d s e).getD i 0 = s + (i : ℚ) * ((e - s) / (lcN d : ℚ)) := by
  rw [lcSamples, List.getD_eq_getElem?_getD, List.getElem?_map, List.getElem?_range h]
  rfl

theorem tlN_one : tlN 1 = 44100 := by
  rw [tlN, SAMPLING_RATE, pyRound]
  norm_num

theorem tlN_two : tlN 2 = 88200 := by
  rw [tlN, SAMPLING_RATE, pyRound]
  norm_num

theorem lcN_one : lcN 1 = 44100 := by
  rw [lcN, SAMPLING_RATE, pyRound]
  norm_num

theorem quantize_one : quantize 1 = 32767 := by
  rw [quantize, pyRound]
  norm_num

theorem quantize_negOne : quantize (-1) = -32767 := by
  rw [quantize, pyRound]
  norm_num

/-! ### Claims -/

/-- C1: the claim says an error while quantizing or writing a sample during
    `pipe_to_wave` aborts the render, propagates a descriptive error, and
    leaves no partial or finalized output file.  The code instead wraps the
    write loop in a bare `except:` that prints `(i, ss, sm)` and returns
    normally, and the `with wave.open(...)` block then finalizes the file.
    Evaluated at the failing input of the spec's own test property —
    `timeLimit` pulling 2.0 seconds from a 1.0-second finite source — the
    render returns a result: the exhaustion error is swallowed and a
    finalized WAV file with the 44100 partial frames (88200 bytes) is left
    behind. -/
theorem render_swallows_error_and_finalizes_partial_file :
    pipe_to_wave (time_limiter (time_limiter (hold 0) 1) 2)
      = some ⟨⟨1, 44100, 2, List.replicate 88200 0⟩, some .streamExhausted⟩ := by
  have h1 : (tlN 1).toNat = 44100 := by
    rw [tlN_one]
    rfl
  have h2 : (tlN 2).toNat = 88200 := by
    rw [tlN_two]
    rfl
  rw [timeLimiter_hold, h1]
  simp only [time_limiter, h2, List.length_replicate]
  rw [if_neg (by norm_num)]
  simp only [pipe_to_wave, writeLoop_replicate_zero 44100]

/-- C2: a note token letter+accidental+optional octave digit (default 4)
    whose pitch class is in the offset table resolves to
    `A4_FREQ * 2 ^ (semitoneOffset / 12) * 2 ^ (octave - 4)`, offsets lie in
    −9..+2, `A4` gives 440, `A5` gives 880, `C` equals `C4`, `C#4` equals
    `Db4`, and raising the octave by one doubles the frequency. -/
theorem note_to_freq_formula_spec :
    (∀ p ∈ SEMITONAL_OFFSET_MAP, -9 ≤ p.2 ∧ p.2 ≤ 2)
    ∧ (∀ (s tok : List Char) (octd : Option Char) (off : ℤ),
        reMatchNote s = some (tok, octd) →
        List.lookup tok SEMITONAL_OFFSET_MAP = some off →
        note_to_freq s = .ok (freqOf off (octOf octd)))
    ∧ note_to_freq ['A', '4'] = .ok 440
    ∧ note_to_freq ['A', '5'] = .ok 880
    ∧ note_to_freq ['C'] = note_to_freq ['C', '4']
    ∧ note_to_freq ['C', '#', '4'] = note_to_freq ['D', 'b', '4']
    ∧ (∀ off oct : ℤ, freqOf off (oct + 1) = 2 * freqOf off oct) := by
  refine ⟨by decide, ?_, ?_, ?_, rfl, rfl, ?_⟩
  · intro s tok octd off h1 h2
    simp [note_to_freq, noteParse, h1, h2]
  · show Except.ok (freqOf 0 4) = Except.ok (440 : ℝ)
    congr 1
    rw [freqOf, A4_FREQ]
    push_cast
    norm_num [Real.rpow_zero]
  · show Except.ok (freqOf 0 5) = Except.ok (880 : ℝ)
    congr 1
    rw [freqOf, A4_FREQ]
    push_cast
    norm_num [Real.rpow_zero, Real.rpow_one]
  · intro off oct
    rw [freqOf, freqOf]
    rw [show ((oct + 1 : ℤ) : ℝ) - 4 = ((oct : ℤ) : ℝ) - 4 + 1 from by push_cast; ring]
    rw [Real.rpow_add_one (by norm_num : (2 : ℝ) ≠ 0)]
    ring

/-- C2 witness: the general formula clause evaluated at the concrete
    token `Db3`. -/
theorem note_to_freq_formula_witness :
    note_to_freq ['D', 'b', '3'] = .ok (freqOf (-8) (octOf (some '3'))) :=
  note_to_freq_formula_spec.2.1 ['D', 'b', '3'] ['D', 'b'] (some '3') (-8) rfl rfl

/-- C3: the claim says every input that does not match the note-token
    grammar, or whose pitch class is unknown, fails with
    `MalformedNoteError`.  No such error class exists anywhere in the code
    (the docstring says `TODO(antb): Add error checking for bad note
    names.`), and because `re.match` anchors only at the start of the
    string, the malformed input `"Gxyz"` is silently accepted: the prefix
    `G` parses, the octave defaults to 4, and a frequency is returned with
    no error at all. -/
theorem note_to_freq_accepts_malformed_input :
    note_to_freq ['G', 'x', 'y', 'z'] = .ok (freqOf (-2) 4) := rfl

/-- C4: `time_limiter` yields exactly `round(numSeconds * 44100)` samples
    pulled in order from the source when the source supplies enough
    samples (both for an infinite source and for a long-enough finite
    one), and fails with the stream-exhaustion error — it does not
    silently truncate — when a finite source runs out early. -/
theorem time_limiter_spec (src : SStream ℚ) (sec : ℚ) (h0 : 0 ≤ tlN sec) :
    (∀ f, src = .inf f →
        time_limiter src sec = .fin ((List.range (tlN sec).toNat).map f) .stop
        ∧ ((((List.range (tlN sec).toNat).map f).length : ℤ) = tlN sec))
    ∧ (∀ xs, src = .fin xs .stop → (tlN sec).toNat ≤ xs.length →
        time_limiter src sec = .fin (List.take (tlN sec).toNat xs) .stop
        ∧ (((List.take (tlN sec).toNat xs).length : ℤ) = tlN sec))
    ∧ (∀ xs, src = .fin xs .stop → xs.length < (tlN sec).toNat →
        time_limiter src sec = .fin xs (.raise .streamExhausted)) := by
  have hlen : (((tlN sec).toNat : ℤ)) = tlN sec := Int.toNat_of_nonneg h0
  refine ⟨?_, ?_, ?_⟩
  · rintro f rfl
    constructor
    · rfl
    · rw [List.length_map, List.length_range]
      exact hlen
  · rintro xs rfl hle
    rw [time_limiter, if_pos hle]
    refine ⟨rfl, ?_⟩
    rw [List.length_take, min_eq_left hle]
    exact hlen
  · rintro xs rfl hlt
    rw [time_limiter, if_neg (by omega)]

/-- C4 witness: pulling 2.0 seconds from a three-sample finite source
    yields the three samples and then the exhaustion error. -/
theorem time_limiter_spec_witness :
    time_limiter (.fin [(1 : ℚ), 2, 3] .stop) 2 = .fin [1, 2, 3] (.raise .streamExhausted) :=
  (time_limiter_spec (.fin [1, 2, 3] .stop) 2 (by rw [tlN_two]; norm_num)).2.2
    [1, 2, 3] rfl (by rw [tlN_two]; norm_num)

/-- C5 counterexample: the claim says parameter validation fails fast at
    stream construction.  Calling a Python generator function runs none of
    its body, so construction always succeeds and returns a generator;
    the two equations below exhibit the constructed streams.
    `rectangular_wave(440, 1.5)` is a stream that raises `AssertionError`
    only at its first pull, and `linear_change(-1, 0, 1)` — a duration
    outside its valid domain — is constructed, never raises any
    `InvalidParameterError`, and silently yields nothing. -/
theorem param_validation_not_at_construction :
    rectangular_wave 440 (3 / 2) 0 1 = .fin [] (.raise .assertionError)
    ∧ linear_change (-1) 0 1 = .fin [] .stop := by
  constructor
  · rw [rectangular_wave, if_neg (by norm_num), if_pos (by norm_num)]
  · rw [linear_change, if_neg (by rw [lcN, SAMPLING_RATE, pyRound]; norm_num)]
    rw [lcSamples, Int.toNat_of_nonpos (by rw [lcN, SAMPLING_RATE, pyRound]; norm_num)]
    rfl

/-- C5 (amended): parameter validation is deferred to the first pull, not
    done at construction: an out-of-range duty cycle raises
    `AssertionError` at the first pull of `rectangular_wave`; a duration
    with a negative sample count makes `linear_change` silently yield an
    empty stream with no error; a duration whose sample count rounds to 0
    makes `linear_change` raise `ZeroDivisionError` at the first pull. -/
theorem param_validation_at_first_pull_spec :
    (∀ f dc mn mx : ℚ, f ≠ 0 → ¬(0 ≤ dc ∧ dc ≤ 1) →
        rectangular_wave f dc mn mx = .fin [] (.raise .assertionError))
    ∧ (∀ d s e : ℚ, lcN d < 0 → linear_change d s e = .fin [] .stop)
    ∧ (∀ d s e : ℚ, lcN d = 0 → linear_change d s e = .fin [] (.raise .zeroDivision)) := by
  refine ⟨?_, ?_, ?_⟩
  · intro f dc mn mx hf hdc
    rw [rectangular_wave, if_neg hf, if_pos hdc]
  · intro d s e hneg
    rw [linear_change, if_neg (by omega)]
    rw [lcSamples, Int.toNat_of_nonpos (le_of_lt hneg)]
    rfl
  · intro d s e h0
    rw [linear_change, if_pos h0]

/-- C5 witness: the amended behaviour at duty cycle 2. -/
theorem param_validation_at_first_pull_witness :
    rectangular_wave 440 2 0 1 = .fin [] (.raise .assertionError) :=
  param_validation_at_first_pull_spec.1 440 2 0 1 (by norm_num) (by norm_num)

/-- C6 counterexample: the claim quantifies over every duration and every
    start/end values.  At the positive duration `1/100000`,
    `round(d * 44100) = 0`, and `linear_change` raises `ZeroDivisionError`
    at its first pull instead of yielding 0 samples; and at `s = e = 1`
    (duration 2) the final sample equals `e` exactly, contradicting "the
    value e is not included as the final sample". -/
theorem linear_change_zero_and_endpoint_cex :
    linear_change (1 / 100000) 0 1 = .fin [] (.raise .zeroDivision)
    ∧ (lcSamples 2 1 1).getLast? = some 1
    ∧ lcN 2 = 88200 := by
  have h2 : lcN 2 = 88200 := by
    rw [lcN, SAMPLING_RATE, pyRound]
    norm_num
  refine ⟨?_, ?_, h2⟩
  · rw [linear_change, if_pos (by rw [lcN, SAMPLING_RATE, pyRound]; norm_num)]
  · rw [lcSamples_getLast 2 1 1 (by rw [h2]; norm_num)]
    norm_num

/-- C6 (amended): for every duration `d` with `round(d * 44100) ≥ 1` and all
    values `s`, `e`, `linear_change d s e` yields exactly `round(d * 44100)`
    samples, sample `i` equals `s + i * (e - s) / numSamples`, the first
    sample equals `s` exactly, the last sample equals `e` minus one
    slope-step (so `e` is not the final sample whenever `s ≠ e`), and the
    sample count does not depend on `s` and `e` at all. -/
theorem linear_change_spec (d s e : ℚ) (h : 1 ≤ lcN d) :
    linear_change d s e = .fin (lcSamples d s e) .stop
    ∧ (lcSamples d s e).length = (lcN d).toNat
    ∧ (∀ i, i < (lcN d).toNat →
        (lcSamples d s e).getD i 0 = s + (i : ℚ) * ((e - s) / (lcN d : ℚ)))
    ∧ (lcSamples d s e).head? = some s
    ∧ (lcSamples d s e).getLast? = some (e - (e - s) / (lcN d : ℚ))
    ∧ (s ≠ e → (lcSamples d s e).getLast? ≠ some e)
    ∧ ∀ s2 e2 : ℚ, (lcSamples d s2 e2).length = (lcSamples d s e).length := by
  have hne : (lcN d : ℚ) ≠ 0 := by
    exact_mod_cast (by omega : lcN d ≠ 0)
  have hlast : (lcSamples d s e).getLast? = some (e - (e - s) / (lcN d : ℚ)) := by
    rw [lcSamples_getLast d s e h]
    congr 1
    field_simp
    ring
  refine ⟨?_, lcSamples_length d s e, fun i hi => lcSamples_getD d s e i hi,
    lcSamples_head d s e h, hlast, ?_,
    fun s2 e2 => by rw [lcSamples_length, lcSamples_length]⟩
  · rw [linear_change, if_neg (by omega)]
  · intro hse hEq
    rw [hlast] at hEq
    have heq1 : e - (e - s) / (lcN d : ℚ) = e := Option.some_inj.mp hEq
    have heq2 : (e - s) / (lcN d : ℚ) = 0 := by linarith
    rcases div_eq_zero_iff.mp heq2 with h3 | h3
    · exact hse (by linarith)
    · exact hne h3

/-- C6 witness: `linear_change 1 0 1` evaluated through the theorem. -/
theorem linear_change_spec_witness :
    linear_change 1 0 1 = .fin (lcSamples 1 0 1) .stop
    ∧ (lcSamples 1 0 1).length = (lcN 1).toNat :=
  ⟨(linear_change_spec 1 0 1 (by rw [lcN_one]; norm_num)).1,
   (linear_change_spec 1 0 1 (by rw [lcN_one]; norm_num)).2.1⟩

/-- C7: for duty cycle in [0,1] and positive frequency (with a cycle of at
    least one sample), `rectangular_wave` is the infinite periodic stream
    whose every cycle of `round(44100 / f)` samples starts with
    `round(dutyCycle * round(44100 / f))` copies of `max` followed by the
    remaining copies of `min`. -/
theorem rectangular_wave_cycle_spec (f dc mn mx : ℚ) (hf : 0 < f) (h0 : 0 ≤ dc)
    (h1 : dc ≤ 1) (hn : 1 ≤ cycleLen f) :
    rectangular_wave f dc mn mx
      = .inf (rectFun (cycleLen f).toNat (maxCnt f dc).toNat mn mx)
    ∧ 0 ≤ maxCnt f dc ∧ maxCnt f dc ≤ cycleLen f
    ∧ ∀ k : ℕ,
        (List.range (cycleLen f).toNat).map
          (fun j => rectFun (cycleLen f).toNat (maxCnt f dc).toNat mn mx
            (k * (cycleLen f).toNat + j))
        = List.replicate (maxCnt f dc).toNat mx
          ++ List.replicate ((cycleLen f).toNat - (maxCnt f dc).toNat) mn := by
  have hm0 : 0 ≤ maxCnt f dc := pyRound_nonneg (by positivity)
  have hmn : maxCnt f dc ≤ cycleLen f := by
    have hq : dc * (cycleLen f : ℚ) ≤ ((cycleLen f : ℤ) : ℚ) := by
      have hc : (0 : ℚ) ≤ (cycleLen f : ℚ) := by exact_mod_cast le_trans zero_le_one hn
      nlinarith
    exact pyRound_le_int hq
  refine ⟨?_, hm0, hmn, ?_⟩
  · rw [rectangular_wave, if_neg (ne_of_gt hf), if_neg (by push_neg; exact ⟨h0, h1⟩),
      if_neg (by omega)]
  · intro k
    have hstep : ∀ j ∈ List.range (cycleLen f).toNat,
        rectFun (cycleLen f).toNat (maxCnt f dc).toNat mn mx (k * (cycleLen f).toNat + j)
          = (fun j => if j < (maxCnt f dc).toNat then mx else mn) j := by
      intro j hj
      have hjlt := List.mem_range.mp hj
      rw [rectFun, Nat.mul_comm k, Nat.mul_add_mod, Nat.mod_eq_of_lt hjlt]
    rw [List.map_congr_left hstep]
    rw [show (cycleLen f).toNat
        = (maxCnt f dc).toNat + ((cycleLen f).toNat - (maxCnt f dc).toNat) from by omega]
    rw [range_map_ite]
    congr 2
    omega

/-- C7 witness: frequency 44100 (a one-sample cycle) at duty cycle 1/2. -/
theorem rectangular_wave_cycle_witness :
    rectangular_wave 44100 (1 / 2) 0 1
      = .inf (rectFun (cycleLen 44100).toNat (maxCnt 44100 (1 / 2)).toNat 0 1) :=
  (rectangular_wave_cycle_spec 44100 (1 / 2) 0 1 (by norm_num) (by norm_num)
    (by norm_num) (by rw [cycleLen, SAMPLING_RATE, pyRound]; norm_num)).1

/-- C8: a finished render (all quantized samples in the signed 16-bit
    range, stream exhausted normally) produces a file with 1 channel,
    44100 Hz, sample width 2 bytes (16 bits), and the samples quantized as
    `round(32767 * sample)` and packed little-endian in order.  Quantization
    does not clamp: 1 maps to 32767, −1 to −32767, 0 to 0, and an
    out-of-range sample such as 2 quantizes to 65534 (which `struct.pack`
    then rejects rather than clamps). -/
theorem pipe_to_wave_quantization_spec (xs : List ℚ)
    (h : ∀ q ∈ xs, -32768 ≤ quantize q ∧ quantize q ≤ 32767) :
    pipe_to_wave (.fin xs .stop)
      = some ⟨⟨1, 44100, 2, (xs.map (fun q => toLE16 (quantize q))).flatten⟩, none⟩
    ∧ quantize 1 = 32767 ∧ quantize (-1) = -32767 ∧ quantize 0 = 0
    ∧ quantize 2 = 65534
    ∧ toLE16 32767 = [255, 127] ∧ toLE16 (-32767) = [1, 128] := by
  refine ⟨?_, quantize_one, quantize_negOne, quantize_zero, ?_, rfl, rfl⟩
  · simp [pipe_to_wave, writeLoop_ok xs h]
  · rw [quantize, pyRound]
    norm_num

/-- C8 witness: rendering the three samples 1, −1, 0 produces exactly the
    bytes `FF 7F 01 80 00 00`. -/
theorem pipe_to_wave_quantization_witness :
    pipe_to_wave (.fin [1, -1, 0] .stop)
      = some ⟨⟨1, 44100, 2, [255, 127, 1, 128, 0, 0]⟩, none⟩ := by
  have h := (pipe_to_wave_quantization_spec [1, -1, 0]
    (by
      intro q hq
      fin_cases hq
      · rw [quantize_one]
        norm_num
      · rw [quantize_negOne]
        norm_num
      · rw [quantize_zero]
        norm_num)).1
  rw [h]
  rw [List.map_cons, List.map_cons, List.map_cons, List.map_nil,
    quantize_one, quantize_negOne, quantize_zero, toLE16_zero]
  rfl

/-- C9 counterexample: the claim quantifies over all positive phase
    durations.  At attack duration `1/100000` (positive, but rounding to 0
    samples) the attack phase raises `ZeroDivisionError` at its first pull,
    so `linear_adsr` emits nothing at all — while the decay phase alone
    holds 44100 samples, so the total is not the sum of the four phase
    sample counts. -/
theorem linear_adsr_zero_phase_cex :
    linear_adsr (1 / 100000) 1 1 1 (1 / 2) = .fin [] (.raise .zeroDivision)
    ∧ (lcSamples 1 1 (1 / 2)).length = 44100 := by
  constructor
  · rw [linear_adsr, concatenate]
    rw [linear_change, if_pos (by rw [lcN, SAMPLING_RATE, pyRound]; norm_num)]
    rfl
  · rw [lcSamples_length, lcN_one]
    rfl

/-- C9 (amended): for all phase parameters whose three linear phases have
    `round(duration * 44100) ≥ 1`, `linear_adsr` is exactly the
    concatenation, in order, of `linear_change(attack, 0, 1)`,
    `linear_change(decay, 1, sustainLevel)`,
    `time_limiter(hold(sustainLevel), sustainDuration)` and
    `linear_change(release, sustainLevel, 0)`, and its total sample count
    is the sum of the four phase sample counts; in general, concatenating
    an n-sample stream and an m-sample stream yields exactly n+m samples
    in order. -/
theorem linear_adsr_concat_spec (a d s r lvl : ℚ)
    (ha : 1 ≤ lcN a) (hd : 1 ≤ lcN d) (hr : 1 ≤ lcN r) :
    linear_adsr a d s r lvl
      = .fin (lcSamples a 0 1 ++ (lcSamples d 1 lvl
          ++ (List.replicate (tlN s).toNat lvl ++ (lcSamples r lvl 0 ++ [])))) .stop
    ∧ (lcSamples a 0 1 ++ (lcSamples d 1 lvl
          ++ (List.replicate (tlN s).toNat lvl ++ (lcSamples r lvl 0 ++ [])))).length
        = (lcN a).toNat + ((lcN d).toNat + ((tlN s).toNat + (lcN r).toNat))
    ∧ ∀ (A B : List ℚ) (t : Terminal),
        concat2 (.fin A .stop) (.fin B t) = .fin (A ++ B) t
        ∧ (A ++ B).length = A.length + B.length := by
  refine ⟨?_, ?_, ?_⟩
  · rw [linear_adsr, concatenate]
    rw [linear_change, if_neg (by omega), linear_change, if_neg (by omega),
        linear_change, if_neg (by omega), timeLimiter_hold]
    rfl
  · simp [lcSamples_length]
  · intro A B t
    exact ⟨rfl, List.length_append A B⟩

/-- C9 witness: one-second phases with sustain level 1/2. -/
theorem linear_adsr_concat_witness :
    linear_adsr 1 1 1 1 (1 / 2)
      = .fin (lcSamples 1 0 1 ++ (lcSamples 1 1 (1 / 2)
          ++ (List.replicate (tlN 1).toNat (1 / 2) ++ (lcSamples 1 (1 / 2) 0 ++ [])))) .stop :=
  (linear_adsr_concat_spec 1 1 1 1 (1 / 2) (by rw [lcN_one]; norm_num)
    (by rw [lcN_one]; norm_num) (by rw [lcN_one]; norm_num)).1

/-- C10 counterexample: the claim says a zero-length phase — including
    `linear_change` whose `round(duration * 44100)` is 0 — degenerates to
    emitting nothing rather than erroring.  But at duration 0 the slope
    computation `(end - start) / float(0)` raises `ZeroDivisionError` at
    the first pull. -/
theorem linear_change_zero_raises_cex :
    linear_change 0 0 1 = .fin [] (.raise .zeroDivision) := by
  rw [linear_change, if_pos (by rw [lcN, SAMPLING_RATE, pyRound]; norm_num)]

/-- C10 (amended): the oscillators do degenerate to emitting nothing
    without erroring — `sine_wave` and `rectangular_wave` with
    `round(44100 / f) = 0` never yield and never raise (an empty infinite
    loop), and a duty cycle of 0 gives a zero-length `max` phase inside an
    otherwise normal cycle — but `linear_change` with a zero sample count
    raises `ZeroDivisionError` at its first pull instead of emitting
    nothing. -/
theorem degenerate_phase_spec :
    (∀ f : ℚ, f ≠ 0 → cycleLen f = 0 → sine_wave f = .fin [] .hang)
    ∧ (∀ f dc mn mx : ℚ, f ≠ 0 → 0 ≤ dc → dc ≤ 1 → cycleLen f = 0 →
        rectangular_wave f dc mn mx = .fin [] .hang)
    ∧ (∀ f mn mx : ℚ, 0 < f → 1 ≤ cycleLen f →
        rectangular_wave f 0 mn mx = .inf (rectFun (cycleLen f).toNat 0 mn mx)
        ∧ maxCnt f 0 = 0
        ∧ ∀ i : ℕ, rectFun (cycleLen f).toNat 0 mn mx i = mn)
    ∧ (∀ d s e : ℚ, lcN d = 0 → linear_change d s e = .fin [] (.raise .zeroDivision)) := by
  have hmax0 : ∀ f : ℚ, maxCnt f 0 = 0 := by
    intro f
    rw [maxCnt, pyRound]
    norm_num
  refine ⟨?_, ?_, ?_, ?_⟩
  · intro f hf h0
    rw [sine_wave, if_neg hf, if_pos (by omega)]
  · intro f dc mn mx hf h0 h1 hc
    rw [rectangular_wave, if_neg hf, if_neg (by push_neg; exact ⟨h0, h1⟩), if_pos (by omega)]
  · intro f mn mx hf hn
    refine ⟨?_, hmax0 f, ?_⟩
    · rw [rectangular_wave, if_neg (ne_of_gt hf),
        if_neg (by push_neg; exact ⟨le_refl 0, zero_le_one⟩), if_neg (by omega), hmax0 f]
      rfl
    · intro i
      rw [rectFun]
      simp
  · intro d s e h0
    rw [linear_change, if_pos h0]

/-- C10 witness: at frequency 100000 the cycle length rounds to 0 and the
    sine oscillator emits nothing (and never raises). -/
theorem degenerate_phase_witness :
    sine_wave 100000 = .fin [] .hang :=
  degenerate_phase_spec.1 100000 (by norm_num)
    (by rw [cycleLen, SAMPLING_RATE, pyRound]; norm_num)

end Synthesis
